import Mathlib

/-!
Verification of the homer-mcp device-control core against its specification.

The development shallowly embeds the TypeScript sources:
* `packages/kasa` adapter (`KasaDevice` in types.ts): the autokey XOR wire
  cipher, the command operations and the unified `control` dispatch, with
  network exchanges modelled by an oracle `Env : KasaCmd → Except String KasaResponse`
  and the sequence of issued wire commands recorded as a trace;
* `DeviceRegistry` (device-registry.ts): devices as an insertion-ordered
  association list (mirroring a JS `Map`), with the snapshot persistence
  modelled by an `fsOk : Bool` input consumed inside `saveRegistry`'s
  try/catch;
* the express handlers (`POST /api/devices/:id/control`, `/brightness`).

JS `Date` values are modelled as a `now : Nat` parameter, strings as Lean
`String` over their code points, bytes as `Nat` values below 256.
-/

/-! ### Kasa wire cipher (types.ts lines 156-189) -/

namespace Kasa

/-- Big-endian 4-byte encoding, as written by `Buffer.writeUInt32BE(length, 0)`. -/
def u32be (n : Nat) : List Nat :=
  [n / 2 ^ 24 % 256, n / 2 ^ 16 % 256, n / 2 ^ 8 % 256, n % 256]

/-- Big-endian 4-byte read at offset 0, `buffer.readUInt32BE(0)`.  Only ever
called under a `buffer.length > 4` guard, so the short-list case is dead. -/
def readU32BE : List Nat → Nat
  | a :: b :: c :: d :: _ => a * 2 ^ 24 + b * 2 ^ 16 + c * 2 ^ 8 + d
  | _ => 0

/-- The encryption loop of `KasaDevice.encrypt`: `encrypted = charCode ^ key`,
`key = encrypted` (the un-truncated value), while the Buffer store
`result[i+4] = encrypted` truncates to a byte. -/
def encryptLoop : Nat → List Nat → List Nat
  | _, [] => []
  | key, b :: rest =>
    let e := b ^^^ key
    e % 256 :: encryptLoop e rest

/-- `KasaDevice.encrypt`: 4-byte big-endian length header, then the autokey
XOR stream with seed key 171. -/
def kasaEncrypt (payload : List Nat) : List Nat :=
  u32be payload.length ++ encryptLoop 171 payload

/-- The decryption loop of `KasaDevice.decrypt`: `decrypted = buffer[i] ^ key`,
`key = buffer[i]`. -/
def decryptLoop : Nat → List Nat → List Nat
  | _, [] => []
  | key, b :: rest => (b ^^^ key) :: decryptLoop b rest

/-- `KasaDevice.decrypt`: the header is stripped only when
`buffer.length > 4 && buffer.readUInt32BE(0) === buffer.length - 4`; the
stream is then decrypted with seed key 171. -/
def kasaDecrypt (buffer : List Nat) : List Nat :=
  if buffer.length > 4 ∧ readU32BE buffer = buffer.length - 4 then
    decryptLoop 171 (buffer.drop 4)
  else
    decryptLoop 171 buffer

end Kasa

namespace Kasa

theorem readU32BE_u32be (n : Nat) (h : n < 2 ^ 32) : readU32BE (u32be n) = n := by
  simp only [u32be, readU32BE]
  omega

theorem length_encryptLoop (key : Nat) (l : List Nat) :
    (encryptLoop key l).length = l.length := by
  induction l generalizing key with
  | nil => rfl
  | cons b rest ih => simp [encryptLoop, ih]

theorem decryptLoop_encryptLoop (l : List Nat) :
    ∀ key, key < 256 → (∀ b ∈ l, b < 256) →
    decryptLoop key (encryptLoop key l) = l := by
  induction l with
  | nil => intro key _ _; rfl
  | cons b rest ih =>
    intro key hkey hmem
    have hb : b < 256 := hmem b (List.mem_cons_self _ _)
    have he : b ^^^ key < 256 := Nat.xor_lt_two_pow (n := 8) hb hkey
    have hmod : (b ^^^ key) % 256 = b ^^^ key := Nat.mod_eq_of_lt he
    simp only [encryptLoop, decryptLoop, hmod]
    rw [Nat.xor_cancel_right,
      ih (b ^^^ key) he (fun x hx => hmem x (List.mem_cons_of_mem _ hx))]

theorem readU32BE_u32be_append (n : Nat) (t : List Nat) (h : n < 2 ^ 32) :
    readU32BE (u32be n ++ t) = n := by
  simp only [u32be, List.cons_append, List.nil_append, readU32BE]
  omega

theorem drop_four_u32be_append (n : Nat) (t : List Nat) :
    (u32be n ++ t).drop 4 = t := rfl

end Kasa

/-! ### Shared data model (shared/src/types.ts lines 1-143) -/

inductive DeviceCapability
  | power
  | brightness
  | color
  | color_temp
  deriving DecidableEq, Repr

inductive DeviceType
  | light
  | plug
  | switch
  deriving DecidableEq, Repr

inductive DeviceBrand
  | kasa
  | tuya
  | unknown
  deriving DecidableEq, Repr

inductive PowerState
  | on
  | off
  deriving DecidableEq, Repr

/-- RGB triple from `DeviceControlRequest.color` / `DeviceState.color`. -/
structure RGB where
  r : Int
  g : Int
  b : Int
  deriving DecidableEq, Repr

/-- `DeviceState` from types.ts: every field optional, absent when the device
does not report it. -/
structure DeviceState where
  power : Option PowerState := none
  brightness : Option Int := none
  color : Option RGB := none
  hue : Option Int := none
  saturation : Option Int := none
  color_temp : Option Int := none
  deriving DecidableEq, Repr

/-- `Device` from types.ts.  `type` and `alias` are Lean keywords, so those
fields are named `ty` and `alias'`; `lastSeen` (a JS `Date`) is modelled as a
`Nat` timestamp. -/
structure Device where
  id : String
  mac : Option String := none
  name : String
  alias' : Option String := none
  ty : DeviceType
  brand : DeviceBrand
  model : Option String := none
  ip : String
  capabilities : List DeviceCapability
  room : Option String := none
  note : Option String := none
  online : Option Bool := none
  lastSeen : Option Nat := none
  state : Option DeviceState := none
  deriving DecidableEq, Repr

inductive ControlAction
  | on
  | off
  | toggle
  deriving DecidableEq, Repr

/-- `DeviceControlRequest` from types.ts. -/
structure DeviceControlRequest where
  action : ControlAction
  brightness : Option Int := none
  color : Option RGB := none
  color_temp : Option Int := none
  hue : Option Int := none
  saturation : Option Int := none
  transition : Option Int := none
  deriving DecidableEq, Repr

/-! ### Kasa vendor responses and the adapter operations
(types.ts `KasaResponse`, lines 60-113, and `KasaDevice`, lines 192-434) -/

namespace Kasa

/-- The `light_state` substructure of a bulb's `get_sysinfo` reply (the fields
the adapter reads). -/
structure LightState where
  on_off : Nat
  mode : String := ""
  hue : Int := 0
  saturation : Int := 0
  color_temp : Int := 0
  brightness : Int := 0
  deriving DecidableEq, Repr

/-- The `get_sysinfo` substructure, restricted to the fields the adapter
reads (`relay_state`, `light_state`); the TS interface declares many more
informational fields that no modelled code path inspects. -/
structure SysInfo where
  relay_state : Option Nat := none
  light_state : Option LightState := none
  deriving DecidableEq, Repr

/-- The `set_relay_state` reply substructure. -/
structure SetRelayState where
  err_code : Int
  deriving DecidableEq, Repr

/-- The `system` namespace of a vendor reply. -/
structure SystemNS where
  get_sysinfo : Option SysInfo := none
  set_relay_state : Option SetRelayState := none
  deriving DecidableEq, Repr

/-- A parsed vendor reply (`KasaResponse`).  `lighting_err_code` stands for
`response["smartlife.iot.smartbulb.lightingservice"]?.transition_light_state?.err_code`,
reachable through the interface's `[key: string]: any` catch-all; no adapter
code path ever reads it. -/
structure KasaResponse where
  system : Option SystemNS := none
  lighting_err_code : Option Int := none
  deriving DecidableEq, Repr

/-- The wire commands `KasaDevice` can send.  `transitionLightState`
carries the optional fields merged into the single
`smartlife.iot.smartbulb.lightingservice.transition_light_state` object
(the constant `ignore_default: 1` is omitted). -/
inductive KasaCmd
  | getSysinfo
  | setRelayState (state : Nat)
  | transitionLightState (hue saturation brightness color_temp : Option Int)
  deriving DecidableEq, Repr

/-- Network oracle: the outcome `sendCommand` resolves (parsed reply) or
rejects (connection / timeout / parse error message) with, per command. -/
def Env := KasaCmd → Except String KasaResponse

/-- Optional chain `response.system?.set_relay_state?.err_code`. -/
def relayErrCode (r : KasaResponse) : Option Int :=
  (r.system.bind (·.set_relay_state)).map (·.err_code)

/-- An adapter operation returns its outcome together with the trace of wire
commands issued, in order. -/
abbrev OpResult (α : Type) := Except String α × List KasaCmd

/-- `KasaDevice.getDeviceInfo`: a bare `get_sysinfo` exchange. -/
def getDeviceInfo (env : Env) : OpResult KasaResponse :=
  (env .getSysinfo, [.getSysinfo])

/-- `KasaDevice.turnOn`: send `set_relay_state 1`; fail unless the reply's
embedded `err_code` is exactly 0 (JS `err_code !== 0`, so an absent code also
fails). -/
def turnOn (env : Env) : OpResult Unit :=
  match env (.setRelayState 1) with
  | .error e => (.error e, [.setRelayState 1])
  | .ok r =>
    (if relayErrCode r = some 0 then .ok ()
     else .error "Failed to turn on device", [.setRelayState 1])

/-- `KasaDevice.turnOff`: send `set_relay_state 0` with the same check. -/
def turnOff (env : Env) : OpResult Unit :=
  match env (.setRelayState 0) with
  | .error e => (.error e, [.setRelayState 0])
  | .ok r =>
    (if relayErrCode r = some 0 then .ok ()
     else .error "Failed to turn off device", [.setRelayState 0])

/-- `KasaDevice.setBrightness`: validate the range before any I/O, then send
the transition command; the reply's content is never inspected. -/
def setBrightness (env : Env) (brightness : Int) : OpResult Unit :=
  if brightness < 0 ∨ brightness > 100 then
    (.error "Brightness must be between 0 and 100", [])
  else
    match env (.transitionLightState none none (some brightness) none) with
    | .error e => (.error e, [.transitionLightState none none (some brightness) none])
    | .ok _ => (.ok (), [.transitionLightState none none (some brightness) none])

/-- `KasaDevice.setColor`: validate hue, saturation and (when given)
brightness before any I/O, then send the merged transition command; the
reply's content is never inspected. -/
def setColor (env : Env) (hue saturation : Int) (brightness : Option Int) :
    OpResult Unit :=
  if hue < 0 ∨ hue > 360 then
    (.error "Hue must be between 0 and 360", [])
  else if saturation < 0 ∨ saturation > 100 then
    (.error "Saturation must be between 0 and 100", [])
  else
    match brightness with
    | some b =>
      if b < 0 ∨ b > 100 then
        (.error "Brightness must be between 0 and 100", [])
      else
        match env (.transitionLightState (some hue) (some saturation) (some b) none) with
        | .error e => (.error e, [.transitionLightState (some hue) (some saturation) (some b) none])
        | .ok _ => (.ok (), [.transitionLightState (some hue) (some saturation) (some b) none])
    | none =>
      match env (.transitionLightState (some hue) (some saturation) none none) with
      | .error e => (.error e, [.transitionLightState (some hue) (some saturation) none none])
      | .ok _ => (.ok (), [.transitionLightState (some hue) (some saturation) none none])

/-- `KasaDevice.setColorTemperature`: same validation-first shape for the
2500-9000 K range; the reply's content is never inspected. -/
def setColorTemperature (env : Env) (colorTemp : Int) (brightness : Option Int) :
    OpResult Unit :=
  if colorTemp < 2500 ∨ colorTemp > 9000 then
    (.error "Color temperature must be between 2500K and 9000K", [])
  else
    match brightness with
    | some b =>
      if b < 0 ∨ b > 100 then
        (.error "Brightness must be between 0 and 100", [])
      else
        match env (.transitionLightState none none (some b) (some colorTemp)) with
        | .error e => (.error e, [.transitionLightState none none (some b) (some colorTemp)])
        | .ok _ => (.ok (), [.transitionLightState none none (some b) (some colorTemp)])
    | none =>
      match env (.transitionLightState none none none (some colorTemp)) with
      | .error e => (.error e, [.transitionLightState none none none (some colorTemp)])
      | .ok _ => (.ok (), [.transitionLightState none none none (some colorTemp)])

/-- `Math.round` on a non-negative rational: round half towards `+∞`. -/
def jsRound (q : ℚ) : Int := ⌊q + 1 / 2⌋

/-- `KasaDevice.rgbToHsv`, the standard max/min-channel conversion.  JS
float64 arithmetic is modelled as exact rational arithmetic. -/
def rgbToHsv (r g b : Int) : Int × Int × Int :=
  let r' : ℚ := (r : ℚ) / 255
  let g' : ℚ := (g : ℚ) / 255
  let b' : ℚ := (b : ℚ) / 255
  let mx := max r' (max g' b')
  let mn := min r' (min g' b')
  let diff := mx - mn
  let s : ℚ := if mx = 0 then 0 else diff / mx
  let v : ℚ := mx
  let h : ℚ :=
    if diff = 0 then 0
    else if mx = r' then ((g' - b') / diff + (if g' < b' then 6 else 0)) / 6
    else if mx = g' then ((b' - r') / diff + 2) / 6
    else ((r' - g') / diff + 4) / 6
  (jsRound (h * 360), jsRound (s * 100), jsRound (v * 100))

/-- `KasaDevice.setRGBColor`: validate channels, convert to HSV, delegate to
`setColor` (the rounded value channel is discarded). -/
def setRGBColor (env : Env) (r g b : Int) (brightness : Option Int) :
    OpResult Unit :=
  if r < 0 ∨ r > 255 ∨ g < 0 ∨ g > 255 ∨ b < 0 ∨ b > 255 then
    (.error "RGB values must be between 0 and 255", [])
  else
    let hsv := rgbToHsv r g b
    setColor env hsv.1 hsv.2.1 brightness

/-- The power value read by the toggle branch:
`info.system?.get_sysinfo?.relay_state || info.system?.get_sysinfo?.light_state?.on_off`,
with JS truthiness (a `relay_state` of 0 falls through to the bulb field). -/
def currentPower (r : KasaResponse) : Option Nat :=
  let si := r.system.bind (·.get_sysinfo)
  match si.bind (·.relay_state) with
  | some n => if n ≠ 0 then some n else (si.bind (·.light_state)).map (·.on_off)
  | none => (si.bind (·.light_state)).map (·.on_off)

/-- The tail of `KasaDevice.control`: at most one follow-up bulb command,
chosen by the `color` / `hue`+`saturation` / truthy `color_temp` /
`brightness` cascade. -/
def applyExtras (env : Env) (req : DeviceControlRequest) : OpResult Unit :=
  match req.color with
  | some c => setRGBColor env c.r c.g c.b req.brightness
  | none =>
    match req.hue, req.saturation with
    | some h, some s => setColor env h s req.brightness
    | _, _ =>
      match req.color_temp with
      | some ct =>
        if ct ≠ 0 then setColorTemperature env ct req.brightness
        else
          match req.brightness with
          | some b => setBrightness env b
          | none => (.ok (), [])
      | none =>
        match req.brightness with
        | some b => setBrightness env b
        | none => (.ok (), [])

/-- `KasaDevice.control`: the unified dispatch.  `off` returns right after
`turnOff`; `toggle` polls `get_sysinfo` first and turns off (then returns)
when the reported power is 1, otherwise turns on and falls through to the
extras, as does `on`. -/
def control (env : Env) (req : DeviceControlRequest) : OpResult Unit :=
  match req.action with
  | .off => turnOff env
  | .on =>
    match turnOn env with
    | (.error e, t) => (.error e, t)
    | (.ok _, t) =>
      let (r2, t2) := applyExtras env req
      (r2, t ++ t2)
  | .toggle =>
    match env .getSysinfo with
    | .error e => (.error e, [.getSysinfo])
    | .ok info =>
      if currentPower info = some 1 then
        let (r, t) := turnOff env
        (r, .getSysinfo :: t)
      else
        match turnOn env with
        | (.error e, t) => (.error e, .getSysinfo :: t)
        | (.ok _, t) =>
          let (r2, t2) := applyExtras env req
          (r2, .getSysinfo :: (t ++ t2))

/-- `KasaDevice.getState`: poll `get_sysinfo`, fail when the substructure is
missing, otherwise map a plug's `relay_state` or a bulb's `light_state` to
the uniform `DeviceState`. -/
def getState (env : Env) : OpResult DeviceState :=
  match env .getSysinfo with
  | .error e => (.error e, [.getSysinfo])
  | .ok info =>
    match info.system.bind (·.get_sysinfo) with
    | none => (.error "Unable to get device info", [.getSysinfo])
    | some si =>
      match si.relay_state with
      | some n =>
        (.ok { power := some (if n = 1 then .on else .off) }, [.getSysinfo])
      | none =>
        match si.light_state with
        | some ls =>
          (.ok { power := some (if ls.on_off = 1 then .on else .off),
                 brightness := some ls.brightness,
                 hue := some ls.hue,
                 saturation := some ls.saturation,
                 color_temp := some ls.color_temp }, [.getSysinfo])
        | none => (.ok {}, [.getSysinfo])

end Kasa

/-! ### Device registry (device-registry.ts) -/

namespace Registry

/-- The registry's `Map<string, Device>`: an insertion-ordered association
list, as `Map` iteration order is insertion order. -/
abbrev DeviceMap := List (String × Device)

/-- `Map.get`. -/
def mapGet (m : DeviceMap) (k : String) : Option Device :=
  (m.find? (fun p => p.1 = k)).map (·.2)

/-- `Map.set`: overwrite in place when the key exists, append otherwise. -/
def mapSet (m : DeviceMap) (k : String) (v : Device) : DeviceMap :=
  if m.any (fun p => p.1 = k) then
    m.map (fun p => if p.1 = k then (k, v) else p)
  else
    m ++ [(k, v)]

/-- `Map.delete` (the boolean result is recomputed by the caller). -/
def mapDelete (m : DeviceMap) (k : String) : DeviceMap :=
  m.filter (fun p => ¬ p.1 = k)

/-- `Array.from(this.devices.values())`. -/
def mapValues (m : DeviceMap) : List Device :=
  m.map (·.2)

/-- `Partial<Device>` as passed to `updateDevice`: each key optionally
present.  A `lastSeen` key would be overwritten by the trailing
`lastSeen: new Date()` of the spread, so it is not modelled. -/
structure DeviceUpdates where
  id : Option String := none
  mac : Option String := none
  name : Option String := none
  alias' : Option String := none
  ty : Option DeviceType := none
  brand : Option DeviceBrand := none
  model : Option String := none
  ip : Option String := none
  capabilities : Option (List DeviceCapability) := none
  room : Option String := none
  note : Option String := none
  online : Option Bool := none
  state : Option DeviceState := none
  deriving DecidableEq, Repr

/-- The spread `{...device, ...updates, lastSeen: new Date()}`. -/
def applyUpdates (d : Device) (u : DeviceUpdates) (now : Nat) : Device :=
  { id := u.id.getD d.id
    mac := u.mac.orElse (fun _ => d.mac)
    name := u.name.getD d.name
    alias' := u.alias'.orElse (fun _ => d.alias')
    ty := u.ty.getD d.ty
    brand := u.brand.getD d.brand
    model := u.model.orElse (fun _ => d.model)
    ip := u.ip.getD d.ip
    capabilities := u.capabilities.getD d.capabilities
    room := u.room.orElse (fun _ => d.room)
    note := u.note.orElse (fun _ => d.note)
    online := u.online.orElse (fun _ => d.online)
    lastSeen := some now
    state := u.state.orElse (fun _ => d.state) }

/-- Outcome of a mutating registry call: the boolean the method returns
(`addDevice` returns void, recorded as `true`), the new device map, whether
`saveRegistry` ran, and — when it ran and the file write succeeded — the
snapshot device list it durably wrote. -/
structure RegOutcome where
  result : Bool
  devices : DeviceMap
  persistCalled : Bool
  persisted : Option (List Device)
  deriving Repr

/-- `DeviceRegistry.saveRegistry`: serialise the full device list; a
`writeFileSync` failure (`fsOk = false`) is caught and logged, never
rethrown, so the caller observes nothing.  Returns the durably written
snapshot, `none` when the write failed. -/
def saveRegistry (fsOk : Bool) (m : DeviceMap) : Option (List Device) :=
  if fsOk then some (mapValues m) else none

/-- `DeviceRegistry.addDevice`: upsert with a fresh `lastSeen`, then persist. -/
def addDevice (now : Nat) (fsOk : Bool) (m : DeviceMap) (device : Device) :
    RegOutcome :=
  let m' := mapSet m device.id { device with lastSeen := some now }
  { result := true, devices := m', persistCalled := true,
    persisted := saveRegistry fsOk m' }

/-- `DeviceRegistry.updateDevice`: unknown id returns `false` untouched;
otherwise spread the partial update, refresh `lastSeen`, persist. -/
def updateDevice (now : Nat) (fsOk : Bool) (m : DeviceMap) (id : String)
    (updates : DeviceUpdates) : RegOutcome :=
  match mapGet m id with
  | none => { result := false, devices := m, persistCalled := false, persisted := none }
  | some device =>
    let m' := mapSet m id (applyUpdates device updates now)
    { result := true, devices := m', persistCalled := true,
      persisted := saveRegistry fsOk m' }

/-- `DeviceRegistry.removeDevice`: persist only when the delete removed
something. -/
def removeDevice (fsOk : Bool) (m : DeviceMap) (id : String) : RegOutcome :=
  let deleted := m.any (fun p => p.1 = id)
  if deleted then
    let m' := mapDelete m id
    { result := true, devices := m', persistCalled := true,
      persisted := saveRegistry fsOk m' }
  else
    { result := false, devices := m, persistCalled := false, persisted := none }

/-- `DeviceRegistry.setDeviceOnlineStatus`. -/
def setDeviceOnlineStatus (now : Nat) (fsOk : Bool) (m : DeviceMap) (id : String)
    (online : Bool) : RegOutcome :=
  match mapGet m id with
  | none => { result := false, devices := m, persistCalled := false, persisted := none }
  | some device =>
    let m' := mapSet m id { device with online := some online, lastSeen := some now }
    { result := true, devices := m', persistCalled := true,
      persisted := saveRegistry fsOk m' }

/-- `DeviceRegistry.updateDeviceState`. -/
def updateDeviceState (now : Nat) (fsOk : Bool) (m : DeviceMap) (id : String)
    (state : DeviceState) : RegOutcome :=
  match mapGet m id with
  | none => { result := false, devices := m, persistCalled := false, persisted := none }
  | some device =>
    let m' := mapSet m id { device with state := some state, lastSeen := some now }
    { result := true, devices := m', persistCalled := true,
      persisted := saveRegistry fsOk m' }

/-- `name.toLowerCase().replace(/[^a-z0-9]/g, '')` over the string's
characters (ASCII lowering, as in the device names this code handles). -/
def normalizeName (s : String) : List Char :=
  (s.data.map Char.toLower).filter
    (fun c => ('a' ≤ c && c ≤ 'z') || ('0' ≤ c && c ≤ '9'))

/-- The normalized alias, `device.alias?.toLowerCase().replace(...) || ''`:
an absent alias normalizes to the empty string. -/
def normalizedAlias (d : Device) : List Char :=
  match d.alias' with
  | some a => normalizeName a
  | none => []

/-- JS `a.includes(b)`: `b` occurs contiguously inside `a`. -/
def includesSub (a b : List Char) : Bool := decide (b <:+: a)

/-- The predicate of `getDeviceByName`'s `find`: bidirectional substring
test of the normalized query against normalized name / alias / id. -/
def fuzzyMatch (nq : List Char) (d : Device) : Bool :=
  let deviceName := normalizeName d.name
  let deviceAlias := normalizedAlias d
  let deviceId := normalizeName d.id
  includesSub deviceName nq || includesSub deviceAlias nq || includesSub deviceId nq ||
    includesSub nq deviceName || includesSub nq deviceAlias || includesSub nq deviceId

/-- `DeviceRegistry.getDeviceByName`: first device, in insertion order,
satisfying the fuzzy match. -/
def getDeviceByName (m : DeviceMap) (name : String) : Option Device :=
  (mapValues m).find? (fun d => fuzzyMatch (normalizeName name) d)

/-- `DeviceRegistry.getOnlineDevices`: every device whose `online` field is
not strictly `false` (`device.online !== false`). -/
def getOnlineDevices (m : DeviceMap) : List Device :=
  (mapValues m).filter (fun d => d.online ≠ some false)

/-- The record returned by `DeviceRegistry.getStats`; the three `Record`
counters are association lists keyed by the printed enum values. -/
structure Stats where
  total : Nat
  byType : List (String × Nat)
  byBrand : List (String × Nat)
  byRoom : List (String × Nat)
  online : Nat
  offline : Nat
  deriving DecidableEq, Repr

/-- `(record[key] || 0) + 1` on an association-list record. -/
def bump (rec : List (String × Nat)) (k : String) : List (String × Nat) :=
  if rec.any (fun p => p.1 = k) then
    rec.map (fun p => if p.1 = k then (k, p.2 + 1) else p)
  else
    rec ++ [(k, 1)]

def typeKey : DeviceType → String
  | .light => "light"
  | .plug => "plug"
  | .switch => "switch"

def brandKey : DeviceBrand → String
  | .kasa => "kasa"
  | .tuya => "tuya"
  | .unknown => "unknown"

/-- One iteration of `getStats`'s `for` loop. -/
def statsStep (s : Stats) (d : Device) : Stats :=
  { s with
    byType := bump s.byType (typeKey d.ty)
    byBrand := bump s.byBrand (brandKey d.brand)
    byRoom := bump s.byRoom (d.room.getD "unknown")
    online := if d.online = some false then s.online else s.online + 1
    offline := if d.online = some false then s.offline + 1 else s.offline }

/-- `DeviceRegistry.getStats`: `total` is fixed to the device count up front,
then the loop accumulates the per-key counters and the online/offline split
(`device.online === false` counts as offline, anything else as online). -/
def getStats (m : DeviceMap) : Stats :=
  let devices := mapValues m
  devices.foldl statsStep
    { total := devices.length, byType := [], byBrand := [], byRoom := [],
      online := 0, offline := 0 }

end Registry

/-! ### Control surface: the express handlers of the smart-home-api server -/

namespace Api

open Registry Kasa

/-- The part of the uniform `ApiResponse` envelope the handlers decide:
HTTP status, success flag, error message (the `data` payload and timestamp
are environment-dependent and not modelled). -/
structure ApiResult where
  status : Nat
  success : Bool
  error : Option String := none
  deriving DecidableEq, Repr

/-- The `catch` block of the control-style handlers:
`registry.setDeviceOnlineStatus(req.params.id, false)`. -/
def markOffline (now : Nat) (fsOk : Bool) (m : DeviceMap) (id : String) :
    DeviceMap :=
  (setDeviceOnlineStatus now fsOk m id false).devices

/-- `POST /api/devices/:id/control`: look the device up, build the brand
adapter (`getDeviceController` throws for tuya/unknown), run `control`, then
re-poll state and write `state` + `online=true` back; any throw lands in the
catch, which marks the device offline and returns the 500 envelope.  Returns
the envelope, the final registry map and the wire-command trace. -/
def controlHandler (now : Nat) (fsOk : Bool) (m : DeviceMap) (id : String)
    (req : DeviceControlRequest) (env : Env) :
    ApiResult × DeviceMap × List KasaCmd :=
  match mapGet m id with
  | none => ({ status := 404, success := false, error := some "Device not found" }, m, [])
  | some device =>
    match device.brand with
    | .tuya =>
      ({ status := 500, success := false, error := some "Tuya devices not yet supported" },
       markOffline now fsOk m id, [])
    | .unknown =>
      ({ status := 500, success := false, error := some "Unsupported device brand: unknown" },
       markOffline now fsOk m id, [])
    | .kasa =>
      match control env req with
      | (.error e, t) =>
        ({ status := 500, success := false, error := some e },
         markOffline now fsOk m id, t)
      | (.ok _, t) =>
        match getState env with
        | (.error e, t2) =>
          ({ status := 500, success := false, error := some e },
           markOffline now fsOk m id, t ++ t2)
        | (.ok st, t2) =>
          let m1 := (updateDeviceState now fsOk m id st).devices
          let m2 := (setDeviceOnlineStatus now fsOk m1 id true).devices
          ({ status := 200, success := true }, m2, t ++ t2)

/-- `POST /api/devices/:id/brightness`: 404 on unknown id; 400 when the
device does not advertise the `brightness` capability; 400 when the level is
outside `[0,100]` — all three before any adapter construction or network
exchange.  Otherwise run `setBrightness`, re-poll state and write back; any
throw marks the device offline and yields the 500 envelope.  The request
body's `level` is modelled as an integer (a non-number body is likewise a
400 with no I/O). -/
def brightnessHandler (now : Nat) (fsOk : Bool) (m : DeviceMap) (id : String)
    (level : Int) (env : Env) : ApiResult × DeviceMap × List KasaCmd :=
  match mapGet m id with
  | none => ({ status := 404, success := false, error := some "Device not found" }, m, [])
  | some device =>
    if ¬ device.capabilities.contains .brightness then
      ({ status := 400, success := false,
         error := some "Device does not support brightness control" }, m, [])
    else if level < 0 ∨ level > 100 then
      ({ status := 400, success := false,
         error := some "Brightness level must be between 0 and 100" }, m, [])
    else
      match device.brand with
      | .tuya =>
        ({ status := 500, success := false, error := some "Tuya devices not yet supported" },
         markOffline now fsOk m id, [])
      | .unknown =>
        ({ status := 500, success := false, error := some "Unsupported device brand: unknown" },
         markOffline now fsOk m id, [])
      | .kasa =>
        match setBrightness env level with
        | (.error e, t) =>
          ({ status := 500, success := false, error := some e },
           markOffline now fsOk m id, t)
        | (.ok _, t) =>
          match getState env with
          | (.error e, t2) =>
            ({ status := 500, success := false, error := some e },
             markOffline now fsOk m id, t ++ t2)
          | (.ok st, t2) =>
            let m1 := (updateDeviceState now fsOk m id st).devices
            let m2 := (setDeviceOnlineStatus now fsOk m1 id true).devices
            ({ status := 200, success := true }, m2, t ++ t2)

end Api

/-! ### Shared helper lemmas about the adapter operations -/

namespace Kasa

/-- Whether a wire command is a bulb `transition_light_state` command. -/
def KasaCmd.isTransition : KasaCmd → Bool
  | .transitionLightState _ _ _ _ => true
  | _ => false

theorem turnOn_trace (env : Env) : (turnOn env).2 = [.setRelayState 1] := by
  unfold turnOn
  cases env (.setRelayState 1) <;> simp

theorem turnOff_trace (env : Env) : (turnOff env).2 = [.setRelayState 0] := by
  unfold turnOff
  cases env (.setRelayState 0) <;> simp

theorem setBrightness_trace (env : Env) (b : Int) :
    ∀ c ∈ (setBrightness env b).2, c.isTransition = true := by
  unfold setBrightness
  split
  · simp
  · cases env (.transitionLightState none none (some b) none) <;>
      simp [KasaCmd.isTransition]

theorem setColor_trace (env : Env) (h s : Int) (b : Option Int) :
    ∀ c ∈ (setColor env h s b).2, c.isTransition = true := by
  unfold setColor
  split
  · simp
  · split
    · simp
    · match b with
      | some bv =>
        simp only
        split
        · simp
        · cases env (.transitionLightState (some h) (some s) (some bv) none) <;>
            simp [KasaCmd.isTransition]
      | none =>
        simp only
        cases env (.transitionLightState (some h) (some s) none none) <;>
          simp [KasaCmd.isTransition]

theorem setColorTemperature_trace (env : Env) (ct : Int) (b : Option Int) :
    ∀ c ∈ (setColorTemperature env ct b).2, c.isTransition = true := by
  unfold setColorTemperature
  split
  · simp
  · match b with
    | some bv =>
      simp only
      split
      · simp
      · cases env (.transitionLightState none none (some bv) (some ct)) <;>
          simp [KasaCmd.isTransition]
    | none =>
      simp only
      cases env (.transitionLightState none none none (some ct)) <;>
        simp [KasaCmd.isTransition]

theorem setRGBColor_trace (env : Env) (r g b : Int) (br : Option Int) :
    ∀ c ∈ (setRGBColor env r g b br).2, c.isTransition = true := by
  unfold setRGBColor
  split
  · simp
  · exact setColor_trace env _ _ br

theorem applyExtras_trace (env : Env) (req : DeviceControlRequest) :
    ∀ c ∈ (applyExtras env req).2, c.isTransition = true := by
  unfold applyExtras
  match req.color with
  | some c => exact setRGBColor_trace env _ _ _ _
  | none =>
    simp only
    match req.hue, req.saturation with
    | some h, some s => exact setColor_trace env _ _ _
    | some _, none | none, some _ | none, none =>
      simp only
      match req.color_temp with
      | some ct =>
        simp only
        split
        · exact setColorTemperature_trace env _ _
        · match req.brightness with
          | some b => exact setBrightness_trace env _
          | none => simp
      | none =>
        simp only
        match req.brightness with
        | some b => exact setBrightness_trace env _
        | none => simp

end Kasa

/-! ### Claim C1 — autokey cipher round-trip -/

/-- Claim C1, as stated, fails on the empty sequence: `encrypt` of the empty
payload is just the 4-byte zero header, whose length is not `> 4`, so
`decrypt` never strips it and instead decrypts the header bytes themselves,
returning `[171, 0, 0, 0]` rather than the empty sequence. -/
theorem C1_roundtrip_empty_counterexample :
    Kasa.kasaDecrypt (Kasa.kasaEncrypt []) = [171, 0, 0, 0] ∧
    Kasa.kasaDecrypt (Kasa.kasaEncrypt []) ≠ ([] : List Nat) := by
  decide

/-- Claim C1 (amended): for every nonempty byte sequence (each byte below
256, length below 2^32 as `Buffer.writeUInt32BE` requires), running the
adapter's decrypt on the output of the adapter's encrypt returns the
sequence unchanged. -/
theorem C1_cipher_roundtrip (p : List Nat) (hne : p ≠ [])
    (hlen : p.length < 2 ^ 32) (hbytes : ∀ b ∈ p, b < 256) :
    Kasa.kasaDecrypt (Kasa.kasaEncrypt p) = p := by
  have hpos : 0 < p.length := List.length_pos.mpr hne
  have hlentot : (Kasa.u32be p.length ++ Kasa.encryptLoop 171 p).length = 4 + p.length := by
    rw [List.length_append, Kasa.length_encryptLoop]
    rfl
  unfold Kasa.kasaEncrypt Kasa.kasaDecrypt
  rw [if_pos, Kasa.drop_four_u32be_append]
  · exact Kasa.decryptLoop_encryptLoop p 171 (by norm_num) hbytes
  · refine ⟨by omega, ?_⟩
    rw [Kasa.readU32BE_u32be_append _ _ hlen, hlentot]
    omega

/-- Witness for C1 on the concrete payload `[104, 105]`. -/
theorem C1_cipher_roundtrip_witness :
    ([104, 105] : List Nat) ≠ [] ∧
      Kasa.kasaDecrypt (Kasa.kasaEncrypt [104, 105]) = [104, 105] :=
  ⟨by decide, C1_cipher_roundtrip [104, 105] (by decide) (by decide) (by decide)⟩

/-! ### Claim C2 — vendor-embedded error codes -/

/-- A well-formed vendor reply whose embedded error codes are all 1
(non-zero), both in `system.set_relay_state` and in the lighting-service
substructure reached through the interface's catch-all. -/
def allErrorsReply : Kasa.KasaResponse :=
  { system := some { set_relay_state := some { err_code := 1 } },
    lighting_err_code := some 1 }

/-- An environment whose device answers every command with `allErrorsReply`. -/
def allErrorsEnv : Kasa.Env := fun _ => .ok allErrorsReply

/-- Claim C2, as stated, is false: `setBrightness`, `setColor` and
`setColorTemperature` never inspect the reply, so a well-formed response
carrying a non-zero embedded error code is treated as success by all three
(only `turnOn`/`turnOff` check the code). -/
theorem C2_errcode_counterexample :
    (Kasa.setBrightness allErrorsEnv 50).1 = Except.ok () ∧
    (Kasa.setColor allErrorsEnv 120 100 none).1 = Except.ok () ∧
    (Kasa.setColorTemperature allErrorsEnv 3000 none).1 = Except.ok () ∧
    (Kasa.turnOn allErrorsEnv).1 = Except.error "Failed to turn on device" := by
  refine ⟨rfl, rfl, rfl, rfl⟩

/-- Claim C2 (amended): `turnOn` and `turnOff` fail whenever the reply's
embedded `set_relay_state.err_code` is not exactly 0; but `setBrightness`,
`setColor` and `setColorTemperature` never inspect the reply — with valid
arguments, any successfully parsed response (whatever embedded error code it
carries) is treated as success. -/
theorem C2_errcode_handling (env : Kasa.Env) :
    (∀ r, env (.setRelayState 1) = .ok r → Kasa.relayErrCode r ≠ some 0 →
      (Kasa.turnOn env).1 = .error "Failed to turn on device") ∧
    (∀ r, env (.setRelayState 0) = .ok r → Kasa.relayErrCode r ≠ some 0 →
      (Kasa.turnOff env).1 = .error "Failed to turn off device") ∧
    (∀ b : Int, 0 ≤ b → b ≤ 100 →
      (∃ r, env (.transitionLightState none none (some b) none) = .ok r) →
      (Kasa.setBrightness env b).1 = .ok ()) ∧
    (∀ h s : Int, 0 ≤ h → h ≤ 360 → 0 ≤ s → s ≤ 100 →
      (∃ r, env (.transitionLightState (some h) (some s) none none) = .ok r) →
      (Kasa.setColor env h s none).1 = .ok ()) ∧
    (∀ ct : Int, 2500 ≤ ct → ct ≤ 9000 →
      (∃ r, env (.transitionLightState none none none (some ct)) = .ok r) →
      (Kasa.setColorTemperature env ct none).1 = .ok ()) := by
  refine ⟨?_, ?_, ?_, ?_, ?_⟩
  · intro r hr hne
    simp [Kasa.turnOn, hr, hne]
  · intro r hr hne
    simp [Kasa.turnOff, hr, hne]
  · intro b hb0 hb1 ⟨r, hr⟩
    unfold Kasa.setBrightness
    rw [if_neg (by omega), hr]
  · intro h s hh0 hh1 hs0 hs1 ⟨r, hr⟩
    unfold Kasa.setColor
    rw [if_neg (by omega), if_neg (by omega)]
    simp only
    rw [hr]
  · intro ct hc0 hc1 ⟨r, hr⟩
    unfold Kasa.setColorTemperature
    rw [if_neg (by omega)]
    simp only
    rw [hr]

/-- Witness for C2 on a concrete environment: a reply with embedded error
code 1 makes `turnOn` fail, and the same reply leaves `setBrightness 50`
successful. -/
theorem C2_errcode_handling_witness :
    (Kasa.turnOn allErrorsEnv).1 = .error "Failed to turn on device" ∧
    (Kasa.setBrightness allErrorsEnv 50).1 = .ok () :=
  ⟨(C2_errcode_handling allErrorsEnv).1 allErrorsReply rfl (by decide),
   (C2_errcode_handling allErrorsEnv).2.2.1 50 (by decide) (by decide)
     ⟨allErrorsReply, rfl⟩⟩

/-! ### Claim C3 — toggle polls first, then issues the opposite command -/

/-- Claim C3: with action=toggle the adapter first polls `get_sysinfo`.  If
the poll fails, the call fails with the poll's error and no power command is
issued.  If the device reports power on (value 1), exactly one power command
is issued — power-off — and nothing else.  Otherwise a power-on command is
issued immediately after the poll, followed at most by bulb transition
commands, never another power command. -/
theorem C3_toggle_semantics (env : Kasa.Env) (req : DeviceControlRequest)
    (ha : req.action = .toggle) :
    (∀ e, env .getSysinfo = .error e →
      Kasa.control env req = (.error e, [.getSysinfo])) ∧
    (∀ r, env .getSysinfo = .ok r → Kasa.currentPower r = some 1 →
      (Kasa.control env req).2 =
        [Kasa.KasaCmd.getSysinfo, Kasa.KasaCmd.setRelayState 0]) ∧
    (∀ r, env .getSysinfo = .ok r → Kasa.currentPower r ≠ some 1 →
      ∃ rest, (Kasa.control env req).2 =
          Kasa.KasaCmd.getSysinfo :: Kasa.KasaCmd.setRelayState 1 :: rest ∧
        ∀ c ∈ rest, c.isTransition = true) := by
  refine ⟨?_, ?_, ?_⟩
  · intro e he
    simp [Kasa.control, ha, he]
  · intro r hr hp
    simp [Kasa.control, ha, hr, hp, Kasa.turnOff_trace]
  · intro r hr hp
    have ht := Kasa.turnOn_trace env
    unfold Kasa.control
    rw [ha]
    simp only [hr, if_neg hp]
    rcases h1 : Kasa.turnOn env with ⟨res, t⟩
    rw [h1] at ht
    simp only at ht
    subst ht
    cases res with
    | error e =>
      exact ⟨[], rfl, by simp⟩
    | ok u =>
      rcases h2 : Kasa.applyExtras env req with ⟨res2, t2⟩
      refine ⟨t2, rfl, ?_⟩
      have := Kasa.applyExtras_trace env req
      rw [h2] at this
      exact this

/-- A sysinfo reply reporting relay power on. -/
def relayOnReply : Kasa.KasaResponse :=
  { system := some { get_sysinfo := some { relay_state := some 1 } } }

/-- An environment for a plug that reports power on and acknowledges relay
commands with error code 0. -/
def plugOnEnv : Kasa.Env := fun c =>
  match c with
  | .getSysinfo => .ok relayOnReply
  | _ => .ok { system := some { set_relay_state := some { err_code := 0 } } }

/-- Witness for C3: toggling the powered-on plug issues exactly the poll and
one power-off command. -/
theorem C3_toggle_semantics_witness :
    (Kasa.control plugOnEnv { action := .toggle }).2 =
      [Kasa.KasaCmd.getSysinfo, Kasa.KasaCmd.setRelayState 0] :=
  (C3_toggle_semantics plugOnEnv { action := .toggle } rfl).2.1
    relayOnReply rfl (by decide)

/-! ### Claim C6 — action=off suppresses the extra settings -/

/-- Claim C6: a control request with action=off runs exactly `turnOff`; the
trace is the single power-off command, whatever brightness/color/color_temp
fields the request carries. -/
theorem C6_off_suppresses_extras (env : Kasa.Env) (req : DeviceControlRequest)
    (ha : req.action = .off) :
    Kasa.control env req = Kasa.turnOff env ∧
    (Kasa.control env req).2 = [Kasa.KasaCmd.setRelayState 0] := by
  constructor
  · simp [Kasa.control, ha]
  · simp [Kasa.control, ha, Kasa.turnOff_trace]

/-- A request that powers off while also carrying brightness, color and
color-temperature fields. -/
def offWithExtrasReq : DeviceControlRequest :=
  { action := .off, brightness := some 50, color := some ⟨255, 0, 0⟩,
    color_temp := some 3000, hue := some 10, saturation := some 20 }

/-- Witness for C6: on the concrete loaded request, only the power-off
command goes out. -/
theorem C6_off_suppresses_extras_witness :
    (Kasa.control plugOnEnv offWithExtrasReq).2 =
      [Kasa.KasaCmd.setRelayState 0] :=
  (C6_off_suppresses_extras plugOnEnv offWithExtrasReq rfl).2

/-! ### Claim C4 — fuzzy get-by-name -/

/-- The matching relation written from the claim's words: lowercase and
strip non-alphanumerics on both sides, then the normalized query is a
substring of the device's normalized name, alias or id, or one of those
normalized fields is a substring of the normalized query (an absent alias
normalizes to the empty string). -/
def specFuzzyMatch (q : String) (d : Device) : Prop :=
  (Registry.normalizeName q <:+: Registry.normalizeName d.name ∨
    Registry.normalizeName q <:+: Registry.normalizedAlias d ∨
    Registry.normalizeName q <:+: Registry.normalizeName d.id) ∨
  (Registry.normalizeName d.name <:+: Registry.normalizeName q ∨
    Registry.normalizedAlias d <:+: Registry.normalizeName q ∨
    Registry.normalizeName d.id <:+: Registry.normalizeName q)

namespace Registry

theorem includesSub_iff (a b : List Char) : includesSub a b = true ↔ b <:+: a :=
  decide_eq_true_iff

theorem fuzzyMatch_iff_spec (q : String) (d : Device) :
    fuzzyMatch (normalizeName q) d = true ↔ specFuzzyMatch q d := by
  simp only [fuzzyMatch, specFuzzyMatch, Bool.or_eq_true, includesSub_iff]
  tauto

end Registry

/-- Claim C4: the registry's get-by-fuzzy-name returns only devices related
to the query by the bidirectional normalized-substring match, and it returns
some device exactly when such a device exists in the registry. -/
theorem C4_fuzzy_name (q : String) (m : Registry.DeviceMap) :
    (∀ d, Registry.getDeviceByName m q = some d → specFuzzyMatch q d) ∧
    ((Registry.getDeviceByName m q).isSome ↔
      ∃ d ∈ Registry.mapValues m, specFuzzyMatch q d) := by
  constructor
  · intro d hd
    have := List.find?_some hd
    rwa [Registry.fuzzyMatch_iff_spec] at this
  · rw [Registry.getDeviceByName, List.find?_isSome]
    simp only [Registry.fuzzyMatch_iff_spec]

/-- A representative device: a dimmable Kasa bulb named "Desk Lamp" with
alias "desk". -/
def demoDevice : Device :=
  { id := "d1", name := "Desk Lamp", alias' := some "desk", ty := .light,
    brand := .kasa, ip := "192.168.87.20",
    capabilities := [.power, .brightness], online := some true }

/-- A one-device registry holding `demoDevice` under id "d1". -/
def demoMap : Registry.DeviceMap := [("d1", demoDevice)]

/-- Witness for C4: looking up "Desk!" finds the demo device, which the
claim's relation indeed matches. -/
theorem C4_fuzzy_name_witness : specFuzzyMatch "Desk!" demoDevice :=
  (C4_fuzzy_name "Desk!" demoMap).1 demoDevice (by decide)

/-! ### Shared helper lemmas about the registry map -/

namespace Registry

theorem any_eq_false_of_mapGet_none {m : DeviceMap} {k : String}
    (h : mapGet m k = none) : m.any (fun p => p.1 = k) = false := by
  rw [mapGet, Option.map_eq_none', List.find?_eq_none] at h
  rw [List.any_eq_false]
  exact h

theorem any_eq_true_of_mapGet_some {m : DeviceMap} {k : String} {d : Device}
    (h : mapGet m k = some d) : m.any (fun p => p.1 = k) = true := by
  rw [mapGet, Option.map_eq_some'] at h
  obtain ⟨p, hp, _⟩ := h
  rw [List.any_eq_true]
  refine ⟨p, List.mem_of_find?_eq_some hp, ?_⟩
  have hpk := List.find?_some hp
  exact hpk

theorem mapGet_map_replace (m : DeviceMap) (k : String) (v : Device)
    (hany : m.any (fun p => p.1 = k) = true) :
    mapGet (m.map (fun p => if p.1 = k then (k, v) else p)) k = some v := by
  induction m with
  | nil => simp at hany
  | cons p rest ih =>
    by_cases hp : p.1 = k
    · simp [mapGet, List.find?, hp]
    · have hr : rest.any (fun q => q.1 = k) = true := by
        simpa [hp] using hany
      simpa [mapGet, List.find?, hp] using ih hr

theorem mapGet_append_single (m : DeviceMap) (k : String) (v : Device)
    (hnone : m.any (fun p => p.1 = k) = false) :
    mapGet (m ++ [(k, v)]) k = some v := by
  induction m with
  | nil => simp [mapGet, List.find?]
  | cons p rest ih =>
    rw [List.any_cons, Bool.or_eq_false_iff] at hnone
    have hp : ¬ p.1 = k := by simpa using hnone.1
    simpa [mapGet, List.find?, hp] using ih hnone.2

theorem mapGet_mapSet_self (m : DeviceMap) (k : String) (v : Device) :
    mapGet (mapSet m k v) k = some v := by
  unfold mapSet
  by_cases hany : m.any (fun p => p.1 = k) = true
  · rw [if_pos hany]
    exact mapGet_map_replace m k v hany
  · rw [if_neg hany]
    exact mapGet_append_single m k v (by rwa [Bool.not_eq_true] at hany)

end Registry

/-! ### Claim C5 — unknown-id mutations are failures without side effects -/

/-- Claim C5: each mutating registry operation (`updateDevice`,
`removeDevice`, `setDeviceOnlineStatus`, `updateDeviceState`) invoked with
an id absent from the registry returns `false`, leaves the device map
unchanged and never reaches `saveRegistry`. -/
theorem C5_unknown_id_no_mutation (now : Nat) (fsOk : Bool)
    (m : Registry.DeviceMap) (id : String) (u : Registry.DeviceUpdates)
    (st : DeviceState) (b : Bool) (h : Registry.mapGet m id = none) :
    Registry.updateDevice now fsOk m id u = ⟨false, m, false, none⟩ ∧
    Registry.removeDevice fsOk m id = ⟨false, m, false, none⟩ ∧
    Registry.setDeviceOnlineStatus now fsOk m id b = ⟨false, m, false, none⟩ ∧
    Registry.updateDeviceState now fsOk m id st = ⟨false, m, false, none⟩ := by
  have hany := Registry.any_eq_false_of_mapGet_none h
  refine ⟨?_, ?_, ?_, ?_⟩
  · simp [Registry.updateDevice, h]
  · simp [Registry.removeDevice, hany]
  · simp [Registry.setDeviceOnlineStatus, h]
  · simp [Registry.updateDeviceState, h]

/-- Witness for C5: updating and removing the unknown id "ghost" in the
one-device registry fails with no change and no persistence attempt. -/
theorem C5_unknown_id_no_mutation_witness :
    Registry.updateDevice 0 true demoMap "ghost" {} =
      ⟨false, demoMap, false, none⟩ ∧
    Registry.removeDevice true demoMap "ghost" = ⟨false, demoMap, false, none⟩ :=
  ⟨(C5_unknown_id_no_mutation 0 true demoMap "ghost" {} {} true (by decide)).1,
   (C5_unknown_id_no_mutation 0 true demoMap "ghost" {} {} true (by decide)).2.1⟩

/-! ### Claim C7 — successful mutations refresh last-seen and persist -/

/-- Claim C7: on a known id, each mutating operation succeeds, stamps the
written device with `lastSeen = now`, and calls `saveRegistry` with the full
new device set — `persisted` is exactly that snapshot when the file write
succeeds and `none` when it fails — while neither the returned boolean nor
the new in-memory map depends on the write's outcome (no rollback, no
surfaced failure).  `removeDevice` likewise persists the full remaining set;
`addDevice` stamps and persists unconditionally. -/
theorem C7_success_persists (now : Nat) (fsOk : Bool) (m : Registry.DeviceMap)
    (id : String) (d dev : Device) (u : Registry.DeviceUpdates)
    (st : DeviceState) (b : Bool) (h : Registry.mapGet m id = some d) :
    (∀ o ∈ [Registry.updateDevice now fsOk m id u,
            Registry.setDeviceOnlineStatus now fsOk m id b,
            Registry.updateDeviceState now fsOk m id st,
            Registry.removeDevice fsOk m id,
            Registry.addDevice now fsOk m dev],
      o.result = true ∧ o.persistCalled = true ∧
        o.persisted = (if fsOk then some (Registry.mapValues o.devices) else none)) ∧
    Registry.mapGet (Registry.updateDevice now fsOk m id u).devices id =
      some (Registry.applyUpdates d u now) ∧
    (Registry.applyUpdates d u now).lastSeen = some now ∧
    Registry.mapGet (Registry.setDeviceOnlineStatus now fsOk m id b).devices id =
      some { d with online := some b, lastSeen := some now } ∧
    Registry.mapGet (Registry.updateDeviceState now fsOk m id st).devices id =
      some { d with state := some st, lastSeen := some now } ∧
    Registry.mapGet (Registry.addDevice now fsOk m dev).devices dev.id =
      some { dev with lastSeen := some now } ∧
    (Registry.updateDevice now fsOk m id u).devices =
      (Registry.updateDevice now true m id u).devices ∧
    (Registry.updateDevice now fsOk m id u).result =
      (Registry.updateDevice now true m id u).result := by
  have hany := Registry.any_eq_true_of_mapGet_some h
  refine ⟨?_, ?_, ?_, ?_, ?_, ?_, ?_, ?_⟩
  · intro o ho
    simp only [List.mem_cons, List.mem_singleton, List.not_mem_nil, or_false] at ho
    rcases ho with rfl | rfl | rfl | rfl | rfl <;>
      simp [Registry.updateDevice, Registry.setDeviceOnlineStatus,
        Registry.updateDeviceState, Registry.removeDevice, Registry.addDevice,
        Registry.saveRegistry, h, hany]
  · simp [Registry.updateDevice, h, Registry.mapGet_mapSet_self]
  · rfl
  · simp [Registry.setDeviceOnlineStatus, h, Registry.mapGet_mapSet_self]
  · simp [Registry.updateDeviceState, h, Registry.mapGet_mapSet_self]
  · simp [Registry.addDevice, Registry.mapGet_mapSet_self]
  · simp [Registry.updateDevice, h]
  · simp [Registry.updateDevice, h]

/-- Witness for C7: marking the demo device offline with a failing snapshot
write still succeeds in memory — result `true`, `lastSeen` stamped to 9,
nothing durably persisted. -/
theorem C7_success_persists_witness :
    Registry.mapGet
        (Registry.setDeviceOnlineStatus 9 false demoMap "d1" false).devices "d1" =
      some { demoDevice with online := some false, lastSeen := some 9 } :=
  (C7_success_persists 9 false demoMap "d1" demoDevice demoDevice {} {} false
    (by decide)).2.2.2.1

/-! ### Shared helper lemmas about the handlers -/

namespace Kasa

theorem getState_trace (env : Env) : (getState env).2 = [KasaCmd.getSysinfo] := by
  unfold getState
  split
  · rfl
  · split
    · rfl
    · split
      · rfl
      · split <;> rfl

end Kasa

namespace Api

theorem markOffline_mapGet (now : Nat) (fsOk : Bool) (m : Registry.DeviceMap)
    (id : String) {d : Device} (h : Registry.mapGet m id = some d) :
    Registry.mapGet (markOffline now fsOk m id) id =
      some { d with online := some false, lastSeen := some now } := by
  unfold markOffline Registry.setDeviceOnlineStatus
  rw [h]
  exact Registry.mapGet_mapSet_self m id _

end Api

/-! ### Claim C8 — any control failure marks the device offline -/

/-- Claim C8: for a control call on a known device, whenever the returned
envelope reports failure — adapter construction for an unsupported brand,
the command execution, or the follow-up state poll — the registry's entry
for the device has been overwritten with `online = false` (and a fresh
last-seen stamp) by the handler's catch block. -/
theorem C8_failure_marks_offline (now : Nat) (fsOk : Bool)
    (m : Registry.DeviceMap) (id : String) (req : DeviceControlRequest)
    (env : Kasa.Env) (d : Device) (h : Registry.mapGet m id = some d)
    (hfail : (Api.controlHandler now fsOk m id req env).1.success = false) :
    Registry.mapGet (Api.controlHandler now fsOk m id req env).2.1 id =
      some { d with online := some false, lastSeen := some now } := by
  have hm := Api.markOffline_mapGet now fsOk m id h
  unfold Api.controlHandler at hfail ⊢
  simp only [h] at hfail ⊢
  cases hb : d.brand with
  | tuya =>
    rw [hb] at hm
    simp only [hb]
    exact hm
  | unknown =>
    rw [hb] at hm
    simp only [hb]
    exact hm
  | kasa =>
    rw [hb] at hm
    simp only [hb] at hfail ⊢
    rcases hc : Kasa.control env req with ⟨cres, ct⟩
    simp only [hc] at hfail ⊢
    cases cres with
    | error e => exact hm
    | ok u =>
      rcases hg : Kasa.getState env with ⟨gres, gt⟩
      simp only [hg] at hfail ⊢
      cases gres with
      | error e => exact hm
      | ok st => simp at hfail

/-- An unreachable device: every exchange rejects with a connection error. -/
def failEnv : Kasa.Env := fun _ => .error "Connection error: connect ECONNREFUSED"

/-- Witness for C8: controlling the demo device through the failing
environment leaves it marked offline in the returned registry. -/
theorem C8_failure_marks_offline_witness :
    Registry.mapGet
        (Api.controlHandler 3 true demoMap "d1" { action := .on } failEnv).2.1 "d1" =
      some { demoDevice with online := some false, lastSeen := some 3 } :=
  C8_failure_marks_offline 3 true demoMap "d1" { action := .on } failEnv demoDevice
    (by decide) (by decide)

/-! ### Claim C9 — brightness endpoint gating -/

/-- Claim C9: for a known device, an out-of-range level is rejected with no
network exchange; an in-range level on a device without the `brightness`
capability yields the 400 validation envelope with no network exchange; and
for an in-range level on a Kasa device whose exchanges succeed, the call
succeeds exactly when the capability set contains `brightness`. -/
theorem C9_brightness_gating (now : Nat) (fsOk : Bool) (m : Registry.DeviceMap)
    (id : String) (level : Int) (env : Kasa.Env) (d : Device)
    (h : Registry.mapGet m id = some d) :
    ((level < 0 ∨ level > 100) →
      (Api.brightnessHandler now fsOk m id level env).1.success = false ∧
      (Api.brightnessHandler now fsOk m id level env).2.2 = []) ∧
    (0 ≤ level → level ≤ 100 →
      d.capabilities.contains .brightness = false →
      (Api.brightnessHandler now fsOk m id level env).1 =
        { status := 400, success := false,
          error := some "Device does not support brightness control" } ∧
      (Api.brightnessHandler now fsOk m id level env).2.2 = []) ∧
    (0 ≤ level → level ≤ 100 → d.brand = .kasa →
      (∃ r, env (.transitionLightState none none (some level) none) = .ok r) →
      (∃ st, (Kasa.getState env).1 = .ok st) →
      ((Api.brightnessHandler now fsOk m id level env).1.success = true ↔
        d.capabilities.contains .brightness = true)) := by
  refine ⟨?_, ?_, ?_⟩
  · intro hrange
    unfold Api.brightnessHandler
    simp only [h]
    by_cases hc : d.capabilities.contains .brightness = true
    · rw [if_neg (not_not_intro hc), if_pos hrange]
      exact ⟨rfl, rfl⟩
    · rw [if_pos hc]
      exact ⟨rfl, rfl⟩
  · intro _ _ hc
    unfold Api.brightnessHandler
    simp only [h]
    rw [if_pos (by rw [Bool.not_eq_true]; exact hc)]
    exact ⟨rfl, rfl⟩
  · intro h0 h1 hbrand ⟨r, hr⟩ ⟨st, hst⟩
    unfold Api.brightnessHandler
    simp only [h]
    by_cases hc : d.capabilities.contains .brightness = true
    · rw [if_neg (not_not_intro hc), if_neg (by omega)]
      have hsb : Kasa.setBrightness env level =
          (.ok (), [.transitionLightState none none (some level) none]) := by
        unfold Kasa.setBrightness
        rw [if_neg (by omega), hr]
      have hgs : Kasa.getState env = (.ok st, [Kasa.KasaCmd.getSysinfo]) := by
        rw [← hst, ← Kasa.getState_trace env]
      simp only [hbrand, hsb, hgs]
      exact ⟨fun _ => hc, fun _ => trivial⟩
    · rw [if_pos hc]
      exact ⟨fun hx => absurd hx Bool.false_ne_true, fun hx => absurd hx hc⟩

/-- Witness for C9 at level 50 on the demo device (which advertises the
`brightness` capability) through a healthy environment. -/
theorem C9_brightness_gating_witness :
    (Api.brightnessHandler 4 true demoMap "d1" 50 plugOnEnv).1.success = true ↔
      demoDevice.capabilities.contains DeviceCapability.brightness = true :=
  (C9_brightness_gating 4 true demoMap "d1" 50 plugOnEnv demoDevice (by decide)).2.2
    (by decide) (by decide) rfl ⟨_, rfl⟩
    ⟨{ power := some PowerState.on }, rfl⟩

/-! ### Claim C10 — undefined online flags count as online -/

namespace Registry

theorem foldl_statsStep_total (l : List Device) (s : Stats) :
    (l.foldl statsStep s).total = s.total := by
  induction l generalizing s with
  | nil => rfl
  | cons d rest ih =>
    rw [List.foldl_cons, ih]
    rfl

theorem foldl_statsStep_online (l : List Device) (s : Stats) :
    (l.foldl statsStep s).online =
      s.online + (l.filter (fun d => d.online ≠ some false)).length := by
  induction l generalizing s with
  | nil => simp
  | cons d rest ih =>
    rw [List.foldl_cons, ih, List.filter_cons]
    by_cases hd : d.online = some false
    · simp [statsStep, hd]
    · simp only [statsStep, hd, if_false, ne_eq, not_false_eq_true, decide_True,
        if_true, List.length_cons]
      omega

theorem foldl_statsStep_offline (l : List Device) (s : Stats) :
    (l.foldl statsStep s).offline =
      s.offline + (l.filter (fun d => d.online = some false)).length := by
  induction l generalizing s with
  | nil => simp
  | cons d rest ih =>
    rw [List.foldl_cons, ih, List.filter_cons]
    by_cases hd : d.online = some false
    · simp only [statsStep, hd, if_true, decide_True, List.length_cons]
      omega
    · simp [statsStep, hd]

theorem length_filter_online_split (l : List Device) :
    (l.filter (fun d => d.online ≠ some false)).length +
      (l.filter (fun d => d.online = some false)).length = l.length := by
  induction l with
  | nil => rfl
  | cons d rest ih =>
    by_cases hd : d.online = some false <;>
      simp [List.filter_cons, hd, ← ih] <;> omega

end Registry

/-- Claim C10: a device whose online flag was never set counts as online:
`getOnlineDevices` keeps exactly the devices whose `online` field is not
strictly `false`, the stats count those same devices in the `online` total,
and `online + offline` always equals the total device count. -/
theorem C10_undefined_online (m : Registry.DeviceMap) :
    (∀ d, d ∈ Registry.getOnlineDevices m ↔
      d ∈ Registry.mapValues m ∧ d.online ≠ some false) ∧
    (Registry.getStats m).online =
      ((Registry.mapValues m).filter (fun d => d.online ≠ some false)).length ∧
    (Registry.getStats m).total = (Registry.mapValues m).length ∧
    (Registry.getStats m).online + (Registry.getStats m).offline =
      (Registry.getStats m).total := by
  refine ⟨?_, ?_, ?_, ?_⟩
  · intro d
    simp [Registry.getOnlineDevices, List.mem_filter]
  · rw [Registry.getStats, Registry.foldl_statsStep_online]
    simp
  · rw [Registry.getStats, Registry.foldl_statsStep_total]
  · rw [Registry.getStats, Registry.foldl_statsStep_online,
      Registry.foldl_statsStep_offline, Registry.foldl_statsStep_total]
    have hsplit := Registry.length_filter_online_split (Registry.mapValues m)
    simp only [Nat.zero_add]
    simpa using hsplit

/-- Witness for C10: the demo device (online set to true, hence not `false`)
is listed by `getOnlineDevices` of the demo registry. -/
theorem C10_undefined_online_witness :
    demoDevice ∈ Registry.getOnlineDevices demoMap ↔
      demoDevice ∈ Registry.mapValues demoMap ∧
        demoDevice.online ≠ some false :=
  (C10_undefined_online demoMap).1 demoDevice

